import Mathlib

/-!
Verification development for the NANA backend (FastAPI + Gemini).

Shallow embedding of `backend/app/debug.py`, `backend/app/schemas.py` and the
routers `notes.py`, `inline_commands.py`, `emphasis.py`, `upload.py`,
`upload_stream.py`, `debug.py`.

Modelling conventions:
* HTTP handlers become pure functions.  External effects are parameters:
  the prompt-template file store is a function `String -> Option Template`
  (path to parsed template), the Gemini call outcome is an
  `Except String _` value (`.error e` models an exception with message `e`),
  and the body of a debug-log file write is an `Except String Unit`
  (`.error` models an I/O failure during the write).
* Python keyword-argument binding is modelled explicitly: calling a function
  with a keyword that is not among its parameters raises `TypeError` before
  the body runs.  This matters because `DebugLogger.log_interaction` declares
  `group_id` while every call site in the routers passes `session_id=`.
* Python `str.format` is modelled on templates parsed into chunks
  (literal text / placeholder); a placeholder with no binding raises
  `KeyError` carrying the key name, like CPython.
* `datetime.now()` timestamps, the sha256 content hash and the absolute
  prompt directories (which depend on the install location) are parameters
  or abstract string constants; no claim depends on their concrete values.
* Floats appear only in `TopicMastery.score`, used exclusively through its
  `"{:.2f}"` rendering, so the model stores that rendering as a string.
-/

/-! ## Data model (`backend/app/schemas.py`) -/

structure PageContent where
  page_number : Int
  text : String
  has_images : Bool := false
  has_tables : Bool := false
deriving DecidableEq

structure UserProfile where
  prior_expertise : String
  math_comfort : String
  detail_level : String
  primary_goal : String
  additional_context : Option String := none
deriving DecidableEq

/-- `score2f` is the `"{data.score:.2f}"` rendering of the float score;
the numeric float value is never used otherwise. -/
structure TopicMastery where
  score2f : String
  attempts : Nat
  last_updated : String
deriving DecidableEq

structure NotesRequest where
  current_page : PageContent
  previous_page : Option PageContent := none
  user_profile : UserProfile
  topic_mastery : List (String × TopicMastery) := []
  previous_notes_context : Option String := none
  document_name : Option String := none
  session_id : Option String := none
deriving DecidableEq

structure NotesResponse where
  markdown : String
  topic_labels : List String := []
  page_references : List Int := []
deriving DecidableEq

inductive InlineCommandType where
  | elaborate
  | simplify
  | analogy
deriving DecidableEq, BEq

structure InlineCommandRequest where
  command_type : InlineCommandType
  selected_text : String
  page_number : Int
  page_text : String
  user_profile : UserProfile
  session_id : Option String := none
deriving DecidableEq

structure InlineCommandResponse where
  content : String
  command_type : InlineCommandType
deriving DecidableEq

structure IntegrateEmphasisRequest where
  page_number : Int
  existing_notes : String
  emphasis_content : String
  page_content : Option PageContent := none
  user_profile : UserProfile
  session_id : Option String := none
deriving DecidableEq

structure DocumentOverview where
  content : String
  visualization_type : String
  document_type : String
deriving DecidableEq

inductive UploadStep where
  | validating
  | extracting
  | parsing
  | generating_overview
  | complete
  | error
deriving DecidableEq

/-! ## Python string primitives

Executable models of the Python `str` methods the backend uses, written by
structural recursion on the character list so that concrete runs reduce. -/

/-- Python `s.lower()` (the backend only ever lowercases ASCII filenames). -/
def py_lower (s : String) : String :=
  String.mk (s.toList.map Char.toLower)

/-- Python `s.endswith(suffix)`. -/
def py_endswith (s suffix : String) : Bool :=
  suffix.toList.isSuffixOf s.toList

/-- Python `s.startswith(pre)` (used for the `glob` pattern model). -/
def py_startswith (s pre : String) : Bool :=
  pre.toList.isPrefixOf s.toList

/-- Python `s.strip()`. -/
def py_strip (s : String) : String :=
  String.mk (((s.toList.dropWhile Char.isWhitespace).reverse.dropWhile
    Char.isWhitespace).reverse)

/-- Helper for `replace_first`: scan for the first occurrence of `old`. -/
def replace_first_go (old new : List Char) : List Char → List Char
  | [] => []
  | c :: cs =>
      if old.isPrefixOf (c :: cs) then new ++ (c :: cs).drop old.length
      else c :: replace_first_go old new cs

/-- Python `s.replace(old, new, 1)` for nonempty `old`: replace the first
occurrence only (the only use site passes `old = "prompts_"`). -/
def replace_first (s old new : String) : String :=
  String.mk (replace_first_go old.toList new.toList s.toList)

instance exceptDecEq {ε α : Type} [DecidableEq ε] [DecidableEq α] :
    DecidableEq (Except ε α) := fun x y =>
  match x, y with
  | .ok a, .ok b =>
      if h : a = b then .isTrue (by rw [h]) else .isFalse (fun hh => h (Except.ok.inj hh))
  | .error a, .error b =>
      if h : a = b then .isTrue (by rw [h]) else .isFalse (fun hh => h (Except.error.inj hh))
  | .ok _, .error _ => .isFalse (fun hh => Except.noConfusion hh)
  | .error _, .ok _ => .isFalse (fun hh => Except.noConfusion hh)

/-! ## Python string formatting (`str.format`) -/

/-- One chunk of a parsed format template: literal text or a `{placeholder}`. -/
inductive Chunk where
  | lit (s : String)
  | ph (key : String)
deriving DecidableEq

abbrev Template := List Chunk

/-- CPython `str.format`: substitute placeholders left to right; the first
placeholder with no binding raises `KeyError(key)`, returned as `.error key`. -/
def str_format : Template → List (String × String) → Except String String
  | [], _ => .ok ""
  | .lit s :: rest, bs => (str_format rest bs).map (fun t => s ++ t)
  | .ph k :: rest, bs =>
      match bs.lookup k with
      | none => .error k
      | some v => (str_format rest bs).map (fun t => v ++ t)

/-! ## Debug logger (`backend/app/debug.py`) -/

/-- The keyword parameters accepted by `DebugLogger.log_interaction`
(`self` excluded): `name`, `prompt`, `response`, `start_time`, `end_time`,
`error`, `group_id`.  Note there is no `session_id` parameter. -/
def log_interaction_params : List String :=
  ["name", "prompt", "response", "start_time", "end_time", "error", "group_id"]

/-- First keyword in a call that `log_interaction` does not accept, if any. -/
def unexpected_kwarg (passed : List String) : Option String :=
  passed.find? (fun k => !(log_interaction_params.contains k))

/-- Python call semantics for `debug_logger.log_interaction(...)`: an
unexpected keyword argument raises `TypeError` before the body runs;
otherwise the body runs (its file writes may themselves fail). -/
def call_log_interaction (passed : List String) (body : Except String Unit) :
    Except String Unit :=
  match unexpected_kwarg passed with
  | some k =>
      .error ("TypeError: log_interaction() got an unexpected keyword argument \x27"
        ++ k ++ "\x27")
  | none => body

/-- Keywords passed by every success-path `log_interaction` call in
`notes.py`, `inline_commands.py`, `emphasis.py`, `upload.py` and
`upload_stream.py`. -/
def success_log_kwargs : List String :=
  ["name", "prompt", "response", "start_time", "end_time", "session_id"]

/-- Keywords passed by every failure-path `log_interaction` call
(same call sites, plus `error=`). -/
def failure_log_kwargs : List String :=
  ["name", "prompt", "response", "start_time", "end_time", "error", "session_id"]

/-! ## Handler outcome model -/

/-- Result of one HTTP handler: a successful response value, a raised
`HTTPException(status, detail)`, or an exception escaping the handler
(which FastAPI converts to a generic 500). -/
inductive HandlerOutcome (α : Type) where
  | ok (value : α)
  | httpError (status : Nat) (detail : String)
  | raised (msg : String)
deriving DecidableEq

/-- A handler run: its outcome plus how many Gemini `generate_content`
calls were issued. -/
structure HandlerRun (α : Type) where
  outcome : HandlerOutcome α
  aiCalls : Nat
deriving DecidableEq

/-- A Gemini response as seen by the notes/emphasis handlers:
`parsedNotes = some n` models `response.parsed` being a `NotesResponse`,
`none` models any other parsed value (fails the `isinstance` check). -/
structure GenaiNotesResponse where
  parsedNotes : Option NotesResponse
deriving DecidableEq

/-! ## Notes router (`backend/app/routers/notes.py`) -/

/-- `PROMPTS_DIR` of `notes.py` (resolved from `__file__` at module load;
modelled as an abstract relative path). -/
def NOTES_PROMPTS_DIR : String := "backend/prompts"

/-- `load_prompt_template` of `notes.py`: read `PROMPTS_DIR / filename`,
raising `FileNotFoundError` when it does not exist. -/
def notes_load_prompt_template (fs : String → Option Template) (filename : String) :
    Except String Template :=
  let path := NOTES_PROMPTS_DIR ++ "/" ++ filename
  match fs path with
  | none => .error ("Prompt file not found: " ++ path)
  | some t => .ok t

/-- The previous-page context block built by `generate_notes`. -/
def previous_page_text (req : NotesRequest) : String :=
  match req.previous_page with
  | some p => "--- Page " ++ toString p.page_number ++ " ---\n" ++ p.text
  | none => "(No previous page - this is page 1)"

/-- The topic-mastery block built by `generate_notes`. -/
def mastery_text (m : List (String × TopicMastery)) : String :=
  if m.isEmpty then "(No prior mastery data)"
  else m.foldl
    (fun acc td =>
      acc ++ "- " ++ td.1 ++ ": Score " ++ td.2.score2f
        ++ " (Attempts: " ++ toString td.2.attempts ++ ")\n")
    ""

/-- The keyword bindings `generate_notes` passes to `prompt_template.format`. -/
def notes_bindings (req : NotesRequest) : List (String × String) :=
  [("prior_expertise", req.user_profile.prior_expertise),
   ("math_comfort", req.user_profile.math_comfort),
   ("detail_level", req.user_profile.detail_level),
   ("primary_goal", req.user_profile.primary_goal),
   ("additional_context", req.user_profile.additional_context.getD "None"),
   ("topic_mastery_text", mastery_text req.topic_mastery),
   ("page_number", toString req.current_page.page_number),
   ("page_text", req.current_page.text),
   ("previous_page_text", previous_page_text req),
   ("previous_notes_text", req.previous_notes_context.getD "(None)")]

/-- `generate_notes` (`POST /notes`).  `ai` is the outcome of
`client.models.generate_content`; `logBody` is the outcome of the debug-log
file writes, were they reached.  The `try` block spans both the Gemini call
and the success-path `log_interaction`; the `except` block logs again and
converts to `HTTPException(500)`; an exception raised inside the `except`
block escapes the handler. -/
def generate_notes (fs : String → Option Template) (req : NotesRequest)
    (ai : Except String GenaiNotesResponse) (logBody : Except String Unit) :
    HandlerRun NotesResponse :=
  match notes_load_prompt_template fs "notes_generation.md" with
  | .error msg => ⟨.httpError 500 msg, 0⟩
  | .ok tmpl =>
    match str_format tmpl (notes_bindings req) with
    | .error k =>
        ⟨.httpError 500 ("Prompt formatting error: Missing key \x27" ++ k ++ "\x27"), 0⟩
    | .ok _filled =>
      let tryRes : Except String GenaiNotesResponse :=
        match ai with
        | .error e => .error e
        | .ok resp =>
            match call_log_interaction success_log_kwargs logBody with
            | .ok _ => .ok resp
            | .error e => .error e
      match tryRes with
      | .ok resp =>
          match resp.parsedNotes with
          | some n => ⟨.ok n, 1⟩
          | none => ⟨.httpError 500 "Gemini response did not match expected schema", 1⟩
      | .error e =>
          match call_log_interaction failure_log_kwargs logBody with
          | .ok _ => ⟨.httpError 500 ("Gemini API error: " ++ e), 1⟩
          | .error e2 => ⟨.raised e2, 1⟩

/-! ## Inline commands router (`backend/app/routers/inline_commands.py`) -/

/-- `COMMAND_PROMPT_FILES`: command type to prompt file name. -/
def COMMAND_PROMPT_FILES : List (InlineCommandType × String) :=
  [(.elaborate, "elaborate.md"), (.simplify, "simplify.md"), (.analogy, "analogy.md")]

/-- `PROMPTS_DIR` of `inline_commands.py` (repo root `prompts/inline_commands`,
resolved from `__file__`; modelled as an abstract relative path). -/
def INLINE_PROMPTS_DIR : String := "prompts/inline_commands"

/-- `ANALOGY_INSTRUCTIONS`: expertise level to analogy instruction fragment
(adjacent Python string literals concatenated). -/
def ANALOGY_INSTRUCTIONS : List (String × String) :=
  [("Software Engineering",
    "Explain this concept using a programming analogy. Draw from: functions, classes, APIs, version control, debugging, or code reviews."),
   ("Data Science/ML",
    "Explain this concept using a data science analogy. Draw from: models, pipelines, features, training loops, or data preprocessing."),
   ("Statistics",
    "Explain this concept using a statistical analogy. Draw from: distributions, sampling, hypothesis testing, confidence intervals, or variance."),
   ("Domain Novice",
    "Explain this concept using an everyday real-world analogy. Draw from: cooking, sports, traffic, libraries, or familiar household activities.")]

/-- `ANALOGY_INSTRUCTIONS.get(expertise, ANALOGY_INSTRUCTIONS["Domain Novice"])`:
the fallback key is present in the table, so the `getD ""` default is inert. -/
def analogy_instruction_for (expertise : String) : String :=
  match ANALOGY_INSTRUCTIONS.lookup expertise with
  | some v => v
  | none => (ANALOGY_INSTRUCTIONS.lookup "Domain Novice").getD ""

/-- `load_prompt_template` of `inline_commands.py`: unknown command raises
`ValueError`, missing file raises `FileNotFoundError`; the handler catches
both kinds and converts them to `HTTPException(500, str(e))`. -/
def inline_load_prompt_template (fs : String → Option Template)
    (command_type : InlineCommandType) : Except String Template :=
  match COMMAND_PROMPT_FILES.lookup command_type with
  | none => .error "Unknown command type"
  | some filename =>
    let path := INLINE_PROMPTS_DIR ++ "/" ++ filename
    match fs path with
    | none => .error ("Prompt file not found: " ++ path)
    | some t => .ok t

/-- The `format_kwargs` dict built by `execute_inline_command`; for `analogy`
the profile-driven instruction fragment is added. -/
def inline_format_kwargs (req : InlineCommandRequest) : List (String × String) :=
  let base :=
    [("prior_expertise", req.user_profile.prior_expertise),
     ("math_comfort", req.user_profile.math_comfort),
     ("detail_level", req.user_profile.detail_level),
     ("selected_text", req.selected_text),
     ("page_number", toString req.page_number),
     ("page_text", req.page_text)]
  if req.command_type == .analogy then
    base ++ [("analogy_instruction", analogy_instruction_for req.user_profile.prior_expertise)]
  else base

/-- A Gemini response as seen by `execute_inline_command`. -/
structure GenaiInlineResponse where
  parsedInline : Option InlineCommandResponse
deriving DecidableEq

/-- `execute_inline_command` (`POST /inline-command`).  Same skeleton as
`generate_notes`; on success the handler rebuilds the response with the
request's own `command_type`. -/
def execute_inline_command (fs : String → Option Template) (req : InlineCommandRequest)
    (ai : Except String GenaiInlineResponse) (logBody : Except String Unit) :
    HandlerRun InlineCommandResponse :=
  match inline_load_prompt_template fs req.command_type with
  | .error msg => ⟨.httpError 500 msg, 0⟩
  | .ok tmpl =>
    match str_format tmpl (inline_format_kwargs req) with
    | .error k =>
        ⟨.httpError 500 ("Prompt formatting error: Missing key \x27" ++ k ++ "\x27"), 0⟩
    | .ok _filled =>
      let tryRes : Except String GenaiInlineResponse :=
        match ai with
        | .error e => .error e
        | .ok resp =>
            match call_log_interaction success_log_kwargs logBody with
            | .ok _ => .ok resp
            | .error e => .error e
      match tryRes with
      | .ok resp =>
          match resp.parsedInline with
          | some p => ⟨.ok ⟨p.content, req.command_type⟩, 1⟩
          | none => ⟨.httpError 500 "Gemini response did not match expected schema", 1⟩
      | .error e =>
          match call_log_interaction failure_log_kwargs logBody with
          | .ok _ => ⟨.httpError 500 ("Gemini API error: " ++ e), 1⟩
          | .error e2 => ⟨.raised e2, 1⟩

/-! ## Emphasis router (`backend/app/routers/emphasis.py`) -/

/-- `load_prompt_template` of `emphasis.py`: fixed file
`PROMPTS_DIR / "integrate_emphasis.md"`. -/
def emphasis_load_prompt_template (fs : String → Option Template) :
    Except String Template :=
  let path := NOTES_PROMPTS_DIR ++ "/" ++ "integrate_emphasis.md"
  match fs path with
  | none => .error ("Prompt file not found: " ++ path)
  | some t => .ok t

/-- The keyword bindings `integrate_emphasis` passes to `format`. -/
def emphasis_bindings (req : IntegrateEmphasisRequest) : List (String × String) :=
  let page_text :=
    match req.page_content with
    | some p => p.text
    | none => "(Original page content not available - use existing notes for context)"
  [("prior_expertise", req.user_profile.prior_expertise),
   ("math_comfort", req.user_profile.math_comfort),
   ("detail_level", req.user_profile.detail_level),
   ("primary_goal", req.user_profile.primary_goal),
   ("page_number", toString req.page_number),
   ("existing_notes", req.existing_notes),
   ("emphasis_content", req.emphasis_content),
   ("page_text", page_text)]

/-- `integrate_emphasis` (`POST /integrate-emphasis`). -/
def integrate_emphasis (fs : String → Option Template) (req : IntegrateEmphasisRequest)
    (ai : Except String GenaiNotesResponse) (logBody : Except String Unit) :
    HandlerRun NotesResponse :=
  match emphasis_load_prompt_template fs with
  | .error msg => ⟨.httpError 500 msg, 0⟩
  | .ok tmpl =>
    match str_format tmpl (emphasis_bindings req) with
    | .error k =>
        ⟨.httpError 500 ("Prompt formatting error: Missing key \x27" ++ k ++ "\x27"), 0⟩
    | .ok _filled =>
      let tryRes : Except String GenaiNotesResponse :=
        match ai with
        | .error e => .error e
        | .ok resp =>
            match call_log_interaction success_log_kwargs logBody with
            | .ok _ => .ok resp
            | .error e => .error e
      match tryRes with
      | .ok resp =>
          match resp.parsedNotes with
          | some n => ⟨.ok n, 1⟩
          | none => ⟨.httpError 500 "Gemini response did not match expected schema", 1⟩
      | .error e =>
          match call_log_interaction failure_log_kwargs logBody with
          | .ok _ => ⟨.httpError 500 ("Gemini API error: " ++ e), 1⟩
          | .error e2 => ⟨.raised e2, 1⟩

/-! ## Upload router (`backend/app/routers/upload.py`) -/

/-- `not file.filename or not file.filename.lower().endswith(".pdf")`:
the shared validation condition of `upload.py` and `upload_stream.py`
(`none` models a missing filename; `""` is falsy in Python). -/
def pdf_filename_rejected (filename : Option String) : Bool :=
  match filename with
  | none => true
  | some s => s == "" || !(py_endswith (py_lower s) ".pdf")

/-- `ParsedPDF` of `upload.py` (no overview field). -/
structure UploadParsedPDF where
  original_filename : String
  total_pages : Nat
  pages : List PageContent
  session_id : String
  content_hash : String
deriving DecidableEq

/-- A Gemini response as seen by the extraction call: `parsedPages = some ps`
models `response.parsed` being a `PDFExtractionResponse` with `.pages = ps`;
`none` models a parsed value without usable pages, so that
`parsed_response.pages` raises. -/
structure GenaiUploadResponse where
  parsedPages : Option (List PageContent)
deriving DecidableEq

/-- Stand-in text for the Python exception raised by `response.parsed` /
`parsed_response.pages` when the structured result is unusable; the exact
interpreter message is not modelled, no claim depends on it. -/
def parse_failure_text : String := "AttributeError"

/-- `upload_and_parse_pdf` (`POST /upload`).  `pdfSize` is `len(pdf_bytes)`;
`contentHash` abstracts the truncated sha256; `sessionId` abstracts the
`datetime.now()` timestamp.  Validation happens before the Gemini call; the
`try` block spans the Gemini call and the success-path `log_interaction`. -/
def upload_and_parse_pdf (filename : Option String) (pdfSize : Nat)
    (contentHash sessionId : String) (ai : Except String GenaiUploadResponse)
    (logBody : Except String Unit) : HandlerRun UploadParsedPDF :=
  if pdf_filename_rejected filename then
    ⟨.httpError 400 "Only PDF files are accepted", 0⟩
  else if pdfSize > 50 * 1024 * 1024 then
    ⟨.httpError 400 "PDF exceeds 50MB limit. Please upload a smaller file.", 0⟩
  else
    let tryRes : Except String GenaiUploadResponse :=
      match ai with
      | .error e => .error e
      | .ok resp =>
          match call_log_interaction success_log_kwargs logBody with
          | .ok _ => .ok resp
          | .error e => .error e
    match tryRes with
    | .ok resp =>
        match resp.parsedPages with
        | some pages =>
            ⟨.ok ⟨filename.getD "", pages.length, pages, sessionId, contentHash⟩, 1⟩
        | none =>
            ⟨.httpError 500 ("Failed to parse Gemini response: " ++ parse_failure_text), 1⟩
    | .error e =>
        match call_log_interaction failure_log_kwargs logBody with
        | .ok _ => ⟨.httpError 500 ("Gemini API error: " ++ e), 1⟩
        | .error e2 => ⟨.raised e2, 1⟩

/-! ## Upload streaming pipeline (`backend/app/routers/upload_stream.py`) -/

/-- `ParsedPDF` of `upload_stream.py` (with optional overview). -/
structure StreamParsedPDF where
  original_filename : String
  total_pages : Nat
  pages : List PageContent
  session_id : String
  content_hash : String
  overview : Option DocumentOverview := none
deriving DecidableEq

/-- `UploadProgressEvent` of `schemas.py`; `data` is the payload dict,
only ever a serialized `ParsedPDF`. -/
structure UploadProgressEvent where
  step : UploadStep
  message : String
  progress_percent : Nat
  data : Option StreamParsedPDF := none
deriving DecidableEq

def validating_event : UploadProgressEvent :=
  ⟨.validating, "Validating PDF file...", 5, none⟩

def extracting_event : UploadProgressEvent :=
  ⟨.extracting, "Extracting text with Gemini AI...", 15, none⟩

def parsing_event : UploadProgressEvent :=
  ⟨.parsing, "Parsing extracted content...", 75, none⟩

def overview_event : UploadProgressEvent :=
  ⟨.generating_overview, "Generating document overview...", 80, none⟩

def error_event (msg : String) : UploadProgressEvent :=
  ⟨.error, msg, 0, none⟩

def complete_event (result : StreamParsedPDF) : UploadProgressEvent :=
  ⟨.complete, "Upload complete!", 100, some result⟩

/-- The `user_profile` multipart form field as the pipeline sees it:
absent (or empty, falsy in Python), present but not a valid
`UserProfile` JSON document (raises `json.JSONDecodeError` or pydantic
`ValidationError`), or valid. -/
inductive ProfileField where
  | absent
  | invalid
  | valid (p : UserProfile)
deriving DecidableEq

/-- A Gemini response as seen by the overview call: `response.parsed`
is returned without any isinstance check. -/
structure GenaiOverviewResponse where
  parsedOverview : Option DocumentOverview
deriving DecidableEq

/-- Path of the overview prompt (`_load_overview_prompt`), read with
`read_text()` and no existence check. -/
def OVERVIEW_PROMPT_PATH : String := "backend/prompts/document_overview.md"

/-- The concatenated page text built by `_generate_overview_async`. -/
def document_text (pages : List PageContent) : String :=
  String.intercalate "\n\n"
    (pages.map (fun p => "--- Page " ++ toString p.page_number ++ " ---\n" ++ p.text))

/-- The keyword bindings `_generate_overview_async` passes to `format`. -/
def overview_bindings (prof : UserProfile) (pages : List PageContent) :
    List (String × String) :=
  [("prior_expertise", prof.prior_expertise),
   ("math_comfort", prof.math_comfort),
   ("detail_level", prof.detail_level),
   ("primary_goal", prof.primary_goal),
   ("additional_context", prof.additional_context.getD "None provided"),
   ("document_text", document_text pages)]

/-- Result of `_generate_overview_async`: `.ok` is a normal return value
(`none` both for a parsed `None` and for the non-fatal except branch),
`.error` is an exception escaping the coroutine; `aiCalls` counts the
overview `generate_content` call. -/
structure OverviewRun where
  result : Except String (Option DocumentOverview)
  aiCalls : Nat

/-- `_generate_overview_async`.  The template load and `format` happen
before the `try`, so their exceptions escape; inside the `try`, the
success-path `log_interaction` runs before `return response.parsed`; the
`except` block logs (which may itself raise) and returns `None`. -/
def generate_overview_async (fs : String → Option Template)
    (pages : List PageContent) (prof : UserProfile)
    (ai : Except String GenaiOverviewResponse) (logBody : Except String Unit) :
    OverviewRun :=
  match fs OVERVIEW_PROMPT_PATH with
  | none => ⟨.error ("FileNotFoundError: " ++ OVERVIEW_PROMPT_PATH), 0⟩
  | some tmpl =>
    match str_format tmpl (overview_bindings prof pages) with
    | .error k => ⟨.error ("KeyError: \x27" ++ k ++ "\x27"), 0⟩
    | .ok _prompt =>
      let tryRes : Except String GenaiOverviewResponse :=
        match ai with
        | .error e => .error e
        | .ok r =>
            match call_log_interaction success_log_kwargs logBody with
            | .ok _ => .ok r
            | .error e => .error e
      match tryRes with
      | .ok r => ⟨.ok r.parsedOverview, 1⟩
      | .error _e =>
          match call_log_interaction failure_log_kwargs logBody with
          | .ok _ => ⟨.ok none, 1⟩
          | .error e2 => ⟨.error e2, 1⟩

/-- One run of the SSE generator: the events yielded in order, the number
of Gemini calls issued, and the exception escaping the generator if any
(crossing the connection boundary). -/
structure StreamRun where
  events : List UploadProgressEvent
  aiCalls : Nat
  escaped : Option String
deriving DecidableEq

/-- `process_pdf_with_progress` (`POST /upload-stream` generator).
Faithful stage order: yield VALIDATING, filename check, size check,
profile parse (invalid JSON only logs a warning), yield EXTRACTING,
extraction call + logging, yield PARSING, `.pages` access, optional
overview stage, yield COMPLETE with the payload. -/
def process_pdf_with_progress (filename : Option String) (pdfSize : Nat)
    (profileField : ProfileField) (contentHash sessionId : String)
    (fs : String → Option Template) (extractAi : Except String GenaiUploadResponse)
    (overviewAi : Except String GenaiOverviewResponse)
    (logBody : Except String Unit) : StreamRun :=
  if pdf_filename_rejected filename then
    ⟨[validating_event, error_event "Only PDF files are accepted"], 0, none⟩
  else if pdfSize > 50 * 1024 * 1024 then
    ⟨[validating_event,
      error_event "PDF exceeds 50MB limit. Please upload a smaller file."], 0, none⟩
  else
    let parsed_profile : Option UserProfile :=
      match profileField with
      | .valid p => some p
      | _ => none
    let evs := [validating_event, extracting_event]
    let tryRes : Except String GenaiUploadResponse :=
      match extractAi with
      | .error e => .error e
      | .ok r =>
          match call_log_interaction success_log_kwargs logBody with
          | .ok _ => .ok r
          | .error e => .error e
    match tryRes with
    | .error e =>
        match call_log_interaction failure_log_kwargs logBody with
        | .ok _ => ⟨evs ++ [error_event ("Gemini API error: " ++ e)], 1, none⟩
        | .error e2 => ⟨evs, 1, some e2⟩
    | .ok resp =>
      let evs := evs ++ [parsing_event]
      match resp.parsedPages with
      | none =>
          ⟨evs ++ [error_event ("Failed to parse Gemini response: " ++ parse_failure_text)],
           1, none⟩
      | some pages =>
        match parsed_profile with
        | none =>
            let result : StreamParsedPDF :=
              ⟨filename.getD "", pages.length, pages, sessionId, contentHash, none⟩
            ⟨evs ++ [complete_event result], 1, none⟩
        | some prof =>
          let evs := evs ++ [overview_event]
          let ov := generate_overview_async fs pages prof overviewAi logBody
          match ov.result with
          | .error e => ⟨evs, 1 + ov.aiCalls, some e⟩
          | .ok o =>
              let result : StreamParsedPDF :=
                ⟨filename.getD "", pages.length, pages, sessionId, contentHash, o⟩
              ⟨evs ++ [complete_event result], 1 + ov.aiCalls, none⟩

/-! ## Cache-hit logging (`DebugLogger.log_cache_hit` and `routers/debug.py`) -/

inductive WriteMode where
  | create
  | append
deriving DecidableEq

/-- One `open(file, mode).write(...)` performed by the logger. -/
structure FileWrite where
  path : String
  mode : WriteMode
  content : String
deriving DecidableEq

/-- `"".join(c for c in group_id if c.isalnum() or c in ("-", "_", ".")).strip()` -/
def sanitize_group_id (g : String) : String :=
  py_strip (String.mk (g.toList.filter
    (fun c => c.isAlphanum || c == '-' || c == '_' || c == '.')))

/-- `self.debug_path.glob(f"prompts_{safe}_*.md")` over the debug directory,
modelled as a list of (filename, mtime) pairs. -/
def glob_prompt_files (safe : String) (files : List (String × Nat)) :
    List (String × Nat) :=
  files.filter (fun f =>
    py_startswith f.1 ("prompts_" ++ safe ++ "_") && py_endswith f.1 ".md")

/-- `sorted(..., key=mtime, reverse=True)[0]`: the first file with maximal
mtime (Python sort is stable, so ties keep directory order). -/
def most_recent : List (String × Nat) → Option (String × Nat)
  | [] => none
  | f :: rest =>
      match most_recent rest with
      | none => some f
      | some g => if g.2 > f.2 then some g else some f

/-- The prompt-side record `log_cache_hit` writes. -/
def cache_prompt_text (ts readable summary : String) : String :=
  "\n\n# Cache Hit (" ++ ts ++ ")\n"
    ++ "**Time:** " ++ readable ++ "\n"
    ++ "\n---\n\n"
    ++ "*No LLM prompt sent - notes served from client-side cache.*\n\n"
    ++ summary

/-- The response-side record `log_cache_hit` writes. -/
def cache_response_text (ts summary : String) : String :=
  "\n\n# Cache Hit (" ++ ts ++ ")\n"
    ++ "**Duration:** 0.0000 seconds (cached)\n"
    ++ "**Token Usage:** None (served from cache)\n"
    ++ "\n---\n\n"
    ++ "*No LLM response - notes served from client-side cache.*\n\n"
    ++ summary

/-- `DebugLogger.log_cache_hit(document_name, summary)`: appends to the
most recent existing `prompts_{safe}_*.md` file and its paired response
file, or creates a fresh pair; in both branches it performs exactly one
prompt-file write followed by one response-file write.  `files` is the
debug directory listing; `ts`/`readable` are the `datetime.now()`
renderings. -/
def log_cache_hit (document_name summary : String) (files : List (String × Nat))
    (ts readable : String) : List FileWrite :=
  let safe := sanitize_group_id document_name
  match most_recent (glob_prompt_files safe files) with
  | some pf =>
      let rname := replace_first pf.1 "prompts_" "responses_"
      [⟨pf.1, .append, cache_prompt_text ts readable summary⟩,
       ⟨rname, .append, cache_response_text ts summary⟩]
  | none =>
      [⟨"prompts_" ++ safe ++ "_" ++ ts ++ ".md", .create,
        cache_prompt_text ts readable summary⟩,
       ⟨"responses_" ++ safe ++ "_" ++ ts ++ ".md", .create,
        cache_response_text ts summary⟩]

/-! ## Sample inputs used by the concrete runs -/

/-- The `TypeError` text produced by every `log_interaction(...)` call site,
all of which pass the unsupported `session_id=` keyword. -/
def session_id_type_error : String :=
  "TypeError: log_interaction() got an unexpected keyword argument \x27session_id\x27"

def demo_profile : UserProfile :=
  { prior_expertise := "Novice", math_comfort := "No equations",
    detail_level := "Concise", primary_goal := "Exam prep" }

def demo_page : PageContent :=
  { page_number := 1, text := "Introduction to neural networks..." }

/-- A file store where every prompt file exists and is a pure literal
(no placeholders, so formatting always succeeds). -/
def demo_fs : String → Option Template :=
  fun _ => some [Chunk.lit "template text"]

def demo_notes_req : NotesRequest :=
  { current_page := demo_page, user_profile := demo_profile }

def demo_notes : NotesResponse := { markdown := "# Notes" }

def demo_emphasis_req : IntegrateEmphasisRequest :=
  { page_number := 1, existing_notes := "existing", emphasis_content := "key point",
    user_profile := demo_profile }

/-! ## Claim theorems -/

/-- Claim C1 (code bug): the claim says a failure inside `log_interaction`
is swallowed and never changes the handler result.  In the code every
`log_interaction` call passes `session_id=`, which the method does not
accept, so the call raises `TypeError`; in `generate_notes`,
`integrate_emphasis` and `upload_and_parse_pdf` the success-path logging
exception is caught by the handler's `except` block, whose own
`log_interaction` call raises again and escapes the handler — a request
whose Gemini call succeeded (and whose log-file write would have
succeeded) fails instead of returning the result. -/
theorem claim_c1_logging_typeerror_breaks_requests :
    call_log_interaction success_log_kwargs (.ok ()) = .error session_id_type_error
    ∧ (generate_notes demo_fs demo_notes_req (.ok ⟨some demo_notes⟩) (.ok ())).outcome
        = .raised session_id_type_error
    ∧ (integrate_emphasis demo_fs demo_emphasis_req (.ok ⟨some demo_notes⟩) (.ok ())).outcome
        = .raised session_id_type_error
    ∧ (upload_and_parse_pdf (some "doc.pdf") 9 "hash" "sess"
        (.ok ⟨some [demo_page]⟩) (.ok ())).outcome
        = .raised session_id_type_error := by
  decide

/-- The run underlying the C6 evaluation: the concrete round-trip scenario
of the spec (page 2 on transformers, page 1 context, novice profile,
mocked parsed `NotesResponse`). -/
def transformers_req : NotesRequest :=
  { current_page := { page_number := 2, text := "Transformers are deep learning models..." },
    previous_page := some demo_page,
    user_profile := demo_profile }

def transformers_notes : NotesResponse :=
  { markdown := "# Transformers\n...", topic_labels := ["transformer", "attention"],
    page_references := [1, 2] }

/-- Claim C6 (code bug): the claim says a parsed `NotesResponse` from the
AI client is echoed back with HTTP 200.  Evaluating `generate_notes` at the
spec's round-trip scenario: the handler never returns the mocked notes —
the success-path `log_interaction(session_id=...)` call raises `TypeError`
inside the `try`, the `except` block's logging call raises again, and the
request fails instead of echoing `markdown`/`topic_labels`/`page_references`. -/
theorem claim_c6_notes_roundtrip_violated_eval :
    (generate_notes demo_fs transformers_req (.ok ⟨some transformers_notes⟩) (.ok ())).outcome
      = .raised session_id_type_error
    ∧ (generate_notes demo_fs transformers_req (.ok ⟨some transformers_notes⟩) (.ok ())).outcome
      ≠ .ok transformers_notes := by
  decide

/-- The streaming run underlying the C4 evaluation: valid small PDF, valid
profile, successful extraction, overview call mocked to fail. -/
def c4_run : StreamRun :=
  process_pdf_with_progress (some "paper.pdf") 2048 (.valid demo_profile)
    "hash4" "sess4" demo_fs (.ok ⟨some [demo_page]⟩)
    (.error "mocked overview failure") (.ok ())

/-- Claim C4 (code bug): the claim says an overview failure is non-fatal
and the stream still reaches `complete` with `overview` absent.  Evaluating
the pipeline with a profile supplied and the overview call mocked to fail:
the stream dies right after the `extracting` event — the post-extraction
`log_interaction(session_id=...)` call raises `TypeError`, which escapes
the generator — so neither `generating_overview` nor `complete` is ever
emitted. -/
theorem claim_c4_overview_nonfatal_violated_eval :
    c4_run.events.map (fun e => e.step) = [.validating, .extracting]
    ∧ c4_run.escaped = some session_id_type_error
    ∧ c4_run.events.map (fun e => e.data) = [none, none] := by
  decide

/-- The streaming run underlying the C5 evaluation: valid small PDF, no
profile, successful extraction with two parsed pages. -/
def c5_run : StreamRun :=
  process_pdf_with_progress (some "slides.pdf") 4096 .absent "hash5" "sess5"
    demo_fs (.ok ⟨some [demo_page, { page_number := 2, text := "More content" }]⟩)
    (.ok ⟨none⟩) (.ok ())

/-- Claim C5 (code bug): the claim says the success path emits
`validating, extracting, parsing, complete` in order with the payload on
`complete`.  Evaluating a fully successful no-profile run: the stream
raises `TypeError` (from the `session_id=` logging call) right after
`extracting`; `parsing` and `complete` are never emitted, so the success
path does not exist in the code as written. -/
theorem claim_c5_event_order_violated_eval :
    c5_run.events.map (fun e => e.step) = [.validating, .extracting]
    ∧ c5_run.escaped = some session_id_type_error := by
  decide

/-- The streaming run underlying the C2 counterexample: valid small PDF
whose `user_profile` form field is present but invalid. -/
def c2_run : StreamRun :=
  process_pdf_with_progress (some "doc.pdf") 1000 .invalid "hash2" "sess2"
    demo_fs (.ok ⟨some [demo_page]⟩) (.ok ⟨none⟩) (.ok ())

/-- Claim C2 counterexample: with an invalid `user_profile` field the claim
demands immediate 400-class termination with no AI call; in the code the
run issues the extraction AI call (count 1) and emits no error event at
validation — the invalid profile is only logged as a warning. -/
theorem claim_c2_invalid_profile_no_rejection_cex :
    c2_run.aiCalls = 1
    ∧ c2_run.events.map (fun e => e.step) = [.validating, .extracting] := by
  decide

/-- Claim C2 as amended: a present-but-invalid `user_profile` form field is
caught, logged as a warning, and ignored — the pipeline behaves exactly as
if no profile had been supplied (so the AI extraction call is still made
and no 400-class outcome occurs at validation). -/
theorem claim_c2_invalid_profile_treated_as_absent :
    ∀ (filename : Option String) (pdfSize : Nat) (contentHash sessionId : String)
      (fs : String → Option Template) (extractAi : Except String GenaiUploadResponse)
      (overviewAi : Except String GenaiOverviewResponse) (logBody : Except String Unit),
      process_pdf_with_progress filename pdfSize .invalid contentHash sessionId
          fs extractAi overviewAi logBody
        = process_pdf_with_progress filename pdfSize .absent contentHash sessionId
          fs extractAi overviewAi logBody := by
  intro filename pdfSize contentHash sessionId fs extractAi overviewAi logBody
  rfl

/-- Claim C3 (confirmed): oversized (> 50 MiB) or badly-named uploads are
rejected at validation before any AI call, with HTTP 400 on `/upload` and a
`validating` event followed by a terminal `error` event (and no escaping
exception) on `/upload-stream`; the filename rejection is independent of
the byte content (the size argument is universally quantified). -/
theorem claim_c3_upload_validation_rejects_before_ai :
    (∀ (filename : Option String) (pdfSize : Nat) (contentHash sessionId : String)
        (ai : Except String GenaiUploadResponse) (logBody : Except String Unit),
        pdf_filename_rejected filename = true →
          upload_and_parse_pdf filename pdfSize contentHash sessionId ai logBody
            = ⟨.httpError 400 "Only PDF files are accepted", 0⟩)
    ∧ (∀ (filename : Option String) (pdfSize : Nat) (pf : ProfileField)
        (contentHash sessionId : String) (fs : String → Option Template)
        (extractAi : Except String GenaiUploadResponse)
        (overviewAi : Except String GenaiOverviewResponse) (logBody : Except String Unit),
        pdf_filename_rejected filename = true →
          process_pdf_with_progress filename pdfSize pf contentHash sessionId
              fs extractAi overviewAi logBody
            = ⟨[validating_event, error_event "Only PDF files are accepted"], 0, none⟩)
    ∧ (∀ (filename : Option String) (pdfSize : Nat) (contentHash sessionId : String)
        (ai : Except String GenaiUploadResponse) (logBody : Except String Unit),
        pdf_filename_rejected filename = false → pdfSize > 50 * 1024 * 1024 →
          upload_and_parse_pdf filename pdfSize contentHash sessionId ai logBody
            = ⟨.httpError 400 "PDF exceeds 50MB limit. Please upload a smaller file.", 0⟩)
    ∧ (∀ (filename : Option String) (pdfSize : Nat) (pf : ProfileField)
        (contentHash sessionId : String) (fs : String → Option Template)
        (extractAi : Except String GenaiUploadResponse)
        (overviewAi : Except String GenaiOverviewResponse) (logBody : Except String Unit),
        pdf_filename_rejected filename = false → pdfSize > 50 * 1024 * 1024 →
          process_pdf_with_progress filename pdfSize pf contentHash sessionId
              fs extractAi overviewAi logBody
            = ⟨[validating_event,
                error_event "PDF exceeds 50MB limit. Please upload a smaller file."], 0, none⟩) := by
  refine ⟨?_, ?_, ?_, ?_⟩
  · intro filename pdfSize contentHash sessionId ai logBody hrej
    simp [upload_and_parse_pdf, hrej]
  · intro filename pdfSize pf contentHash sessionId fs extractAi overviewAi logBody hrej
    simp [process_pdf_with_progress, hrej]
  · intro filename pdfSize contentHash sessionId ai logBody hrej hsize
    simp [upload_and_parse_pdf, hrej, hsize]
  · intro filename pdfSize pf contentHash sessionId fs extractAi overviewAi logBody hrej hsize
    simp [process_pdf_with_progress, hrej, hsize]

/-- Witness for C3: a 50 MiB + 1 byte upload with a fine filename is
rejected with 400 and zero AI calls. -/
theorem claim_c3_witness :
    pdf_filename_rejected (some "big.pdf") = false
    ∧ 52428801 > 50 * 1024 * 1024
    ∧ upload_and_parse_pdf (some "big.pdf") 52428801 "hash" "sess"
        (.error "never called") (.ok ())
      = ⟨.httpError 400 "PDF exceeds 50MB limit. Please upload a smaller file.", 0⟩ :=
  ⟨by decide, by decide,
    claim_c3_upload_validation_rejects_before_ai.2.2.1 (some "big.pdf") 52428801
      "hash" "sess" (.error "never called") (.ok ()) (by decide) (by decide)⟩

/-- Claim C7 (confirmed): the analogy instruction fragment bound to the
`analogy_instruction` placeholder is looked up in `ANALOGY_INSTRUCTIONS`
by the profile's `prior_expertise`: "Software Engineering" selects the
programming-flavored fragment, any expertise absent from the table falls
back to the "Domain Novice" fragment, and for every analogy request the
`format_kwargs` passed to the template fill bind `analogy_instruction` to
exactly that lookup. -/
theorem claim_c7_analogy_fragment_selection :
    analogy_instruction_for "Software Engineering"
      = "Explain this concept using a programming analogy. Draw from: functions, classes, APIs, version control, debugging, or code reviews."
    ∧ (∀ expertise : String, ANALOGY_INSTRUCTIONS.lookup expertise = none →
        analogy_instruction_for expertise
          = "Explain this concept using an everyday real-world analogy. Draw from: cooking, sports, traffic, libraries, or familiar household activities.")
    ∧ (∀ req : InlineCommandRequest, req.command_type = .analogy →
        (inline_format_kwargs req).lookup "analogy_instruction"
          = some (analogy_instruction_for req.user_profile.prior_expertise)) := by
  refine ⟨by decide, ?_, ?_⟩
  · intro expertise h
    simp [analogy_instruction_for, h]
    decide
  · intro req h
    simp only [inline_format_kwargs, h]
    rfl

def se_analogy_req : InlineCommandRequest :=
  { command_type := .analogy, selected_text := "self-attention", page_number := 2,
    page_text := "Transformers are deep learning models...",
    user_profile := { prior_expertise := "Software Engineering",
                      math_comfort := "Comfortable", detail_level := "Concise",
                      primary_goal := "Deep understanding" } }

/-- Witness for C7: an unrecognized expertise falls back to the Domain
Novice fragment, and a concrete Software Engineering analogy request binds
the programming fragment in its format kwargs. -/
theorem claim_c7_witness :
    ANALOGY_INSTRUCTIONS.lookup "Quantum Basketweaving" = none
    ∧ analogy_instruction_for "Quantum Basketweaving"
        = "Explain this concept using an everyday real-world analogy. Draw from: cooking, sports, traffic, libraries, or familiar household activities."
    ∧ (inline_format_kwargs se_analogy_req).lookup "analogy_instruction"
        = some (analogy_instruction_for "Software Engineering") :=
  ⟨by decide,
    claim_c7_analogy_fragment_selection.2.1 "Quantum Basketweaving" (by decide),
    claim_c7_analogy_fragment_selection.2.2 se_analogy_req (by decide)⟩

/-- Claim C8 (confirmed): in each template-loading handler
(`generate_notes`, `execute_inline_command`, `integrate_emphasis`) a
missing template file yields a 500 "Prompt file not found: ..." error and
a placeholder with no binding yields a 500 "Prompt formatting error:
Missing key K" error naming the key; in both cases zero AI calls are made.
The first two conjuncts characterize the loaders themselves (a `none`
entry in the file store produces the `FileNotFoundError` text with the
resolved path); the remaining six cover the two failure kinds per handler. -/
theorem claim_c8_template_failures_block_ai :
    (∀ (fs : String → Option Template) (filename : String),
        fs (NOTES_PROMPTS_DIR ++ "/" ++ filename) = none →
          notes_load_prompt_template fs filename
            = .error ("Prompt file not found: " ++ (NOTES_PROMPTS_DIR ++ "/" ++ filename)))
    ∧ (∀ (fs : String → Option Template) (c : InlineCommandType) (filename : String),
        COMMAND_PROMPT_FILES.lookup c = some filename →
        fs (INLINE_PROMPTS_DIR ++ "/" ++ filename) = none →
          inline_load_prompt_template fs c
            = .error ("Prompt file not found: " ++ (INLINE_PROMPTS_DIR ++ "/" ++ filename)))
    ∧ (∀ fs (req : NotesRequest) ai logBody m,
        notes_load_prompt_template fs "notes_generation.md" = .error m →
          generate_notes fs req ai logBody = ⟨.httpError 500 m, 0⟩)
    ∧ (∀ fs (req : NotesRequest) ai logBody tmpl k,
        notes_load_prompt_template fs "notes_generation.md" = .ok tmpl →
        str_format tmpl (notes_bindings req) = .error k →
          generate_notes fs req ai logBody
            = ⟨.httpError 500 ("Prompt formatting error: Missing key \x27" ++ k ++ "\x27"), 0⟩)
    ∧ (∀ fs (req : InlineCommandRequest) ai logBody m,
        inline_load_prompt_template fs req.command_type = .error m →
          execute_inline_command fs req ai logBody = ⟨.httpError 500 m, 0⟩)
    ∧ (∀ fs (req : InlineCommandRequest) ai logBody tmpl k,
        inline_load_prompt_template fs req.command_type = .ok tmpl →
        str_format tmpl (inline_format_kwargs req) = .error k →
          execute_inline_command fs req ai logBody
            = ⟨.httpError 500 ("Prompt formatting error: Missing key \x27" ++ k ++ "\x27"), 0⟩)
    ∧ (∀ fs (req : IntegrateEmphasisRequest) ai logBody m,
        emphasis_load_prompt_template fs = .error m →
          integrate_emphasis fs req ai logBody = ⟨.httpError 500 m, 0⟩)
    ∧ (∀ fs (req : IntegrateEmphasisRequest) ai logBody tmpl k,
        emphasis_load_prompt_template fs = .ok tmpl →
        str_format tmpl (emphasis_bindings req) = .error k →
          integrate_emphasis fs req ai logBody
            = ⟨.httpError 500 ("Prompt formatting error: Missing key \x27" ++ k ++ "\x27"), 0⟩) := by
  refine ⟨?_, ?_, ?_, ?_, ?_, ?_, ?_, ?_⟩
  · intro fs filename h
    simp [notes_load_prompt_template, h]
  · intro fs c filename hlook h
    simp [inline_load_prompt_template, hlook, h]
  · intro fs req ai logBody m h
    simp [generate_notes, h]
  · intro fs req ai logBody tmpl k h1 h2
    simp [generate_notes, h1, h2]
  · intro fs req ai logBody m h
    simp [execute_inline_command, h]
  · intro fs req ai logBody tmpl k h1 h2
    simp [execute_inline_command, h1, h2]
  · intro fs req ai logBody m h
    simp [integrate_emphasis, h]
  · intro fs req ai logBody tmpl k h1 h2
    simp [integrate_emphasis, h1, h2]

/-- Witness for C8: with an empty file store the notes handler fails with
the missing-template 500 and zero AI calls; with a template demanding an
unbound placeholder it fails with the missing-key 500 and zero AI calls. -/
theorem claim_c8_witness :
    generate_notes (fun _ => none) demo_notes_req (.ok ⟨some demo_notes⟩) (.ok ())
      = ⟨.httpError 500 "Prompt file not found: backend/prompts/notes_generation.md", 0⟩
    ∧ generate_notes (fun _ => some [Chunk.ph "unbound_key"]) demo_notes_req
        (.ok ⟨some demo_notes⟩) (.ok ())
      = ⟨.httpError 500 "Prompt formatting error: Missing key \x27unbound_key\x27", 0⟩ :=
  ⟨claim_c8_template_failures_block_ai.2.2.1 (fun _ => none) demo_notes_req
      (.ok ⟨some demo_notes⟩) (.ok ())
      "Prompt file not found: backend/prompts/notes_generation.md" (by rfl),
   claim_c8_template_failures_block_ai.2.2.2.1 (fun _ => some [Chunk.ph "unbound_key"])
      demo_notes_req (.ok ⟨some demo_notes⟩) (.ok ()) [Chunk.ph "unbound_key"]
      "unbound_key" (by rfl) (by decide)⟩

/-- Claim C9 counterexample: a cache-hit logged for a document with no
prior session files (no session context) does not skip the response file —
`log_cache_hit` creates and writes both a prompt-side and a response-side
file. -/
theorem claim_c9_cache_hit_skips_response_cex :
    (log_cache_hit "lecture.pdf" "cache summary" [] "20250102_030405"
        "2025-01-02 03:04:05").map (fun w => (w.path, w.mode))
      = [("prompts_lecture.pdf_20250102_030405.md", .create),
         ("responses_lecture.pdf_20250102_030405.md", .create)]
    ∧ ((log_cache_hit "lecture.pdf" "cache summary" [] "20250102_030405"
        "2025-01-02 03:04:05").filter
          (fun w => py_startswith w.path "responses_")).length = 1 := by
  decide

/-- Claim C9 as amended: the cache-hit logger always records the event in
both logs — every call performs exactly one prompt-side write followed by
one response-side write (appending to the existing pair for the document,
or creating a fresh pair when none exists); the response write is never
skipped. -/
theorem claim_c9_cache_hit_writes_both_files :
    ∀ (document_name summary : String) (files : List (String × Nat)) (ts readable : String),
      (log_cache_hit document_name summary files ts readable).map (fun w => w.content)
        = [cache_prompt_text ts readable summary, cache_response_text ts summary] := by
  intro document_name summary files ts readable
  unfold log_cache_hit
  rcases h : most_recent (glob_prompt_files (sanitize_group_id document_name) files)
    with _ | pf <;> simp [h]

/-- Every success-path `log_interaction` call raises `TypeError` before its
body runs, because `session_id` is not an accepted keyword. -/
theorem success_log_call_raises (body : Except String Unit) :
    call_log_interaction success_log_kwargs body = .error session_id_type_error := rfl

/-- Likewise for every failure-path `log_interaction` call. -/
theorem failure_log_call_raises (body : Except String Unit) :
    call_log_interaction failure_log_kwargs body = .error session_id_type_error := rfl

/-- Claim C10 (confirmed): for both `/upload` and `/upload-stream` the
`.pdf` check lowercases the filename first (any case variant of the suffix
is accepted) and a missing or empty filename is rejected exactly like a
non-`.pdf` one: conjuncts 1, 5 and 6 show acceptance (validation passes,
the extraction call is reached) for any nonempty name whose lowercased
form ends in ".pdf"; conjuncts 2-4 show the `none`/`""`/non-`.pdf` runs
are pairwise identical rejections. -/
theorem claim_c10_filename_validation :
    (∀ s : String, py_endswith (py_lower s) ".pdf" = true → s ≠ "" →
        pdf_filename_rejected (some s) = false)
    ∧ (∀ (pdfSize : Nat) (contentHash sessionId : String)
        (ai : Except String GenaiUploadResponse) (logBody : Except String Unit),
        upload_and_parse_pdf none pdfSize contentHash sessionId ai logBody
          = upload_and_parse_pdf (some "") pdfSize contentHash sessionId ai logBody)
    ∧ (∀ (s : String) (pdfSize : Nat) (contentHash sessionId : String)
        (ai : Except String GenaiUploadResponse) (logBody : Except String Unit),
        pdf_filename_rejected (some s) = true →
          upload_and_parse_pdf (some s) pdfSize contentHash sessionId ai logBody
            = upload_and_parse_pdf none pdfSize contentHash sessionId ai logBody)
    ∧ (∀ (s : String) (pdfSize : Nat) (pf : ProfileField)
        (contentHash sessionId : String) (fs : String → Option Template)
        (eai : Except String GenaiUploadResponse)
        (oai : Except String GenaiOverviewResponse) (logBody : Except String Unit),
        pdf_filename_rejected (some s) = true →
          process_pdf_with_progress (some s) pdfSize pf contentHash sessionId fs eai oai logBody
            = process_pdf_with_progress none pdfSize pf contentHash sessionId fs eai oai logBody)
    ∧ (∀ (s : String) (pdfSize : Nat) (contentHash sessionId : String)
        (ai : Except String GenaiUploadResponse) (logBody : Except String Unit),
        py_endswith (py_lower s) ".pdf" = true → s ≠ "" → ¬ pdfSize > 50 * 1024 * 1024 →
          (upload_and_parse_pdf (some s) pdfSize contentHash sessionId ai logBody).aiCalls = 1)
    ∧ (∀ (s : String) (pdfSize : Nat) (pf : ProfileField)
        (contentHash sessionId : String) (fs : String → Option Template)
        (eai : Except String GenaiUploadResponse)
        (oai : Except String GenaiOverviewResponse) (logBody : Except String Unit),
        py_endswith (py_lower s) ".pdf" = true → s ≠ "" → ¬ pdfSize > 50 * 1024 * 1024 →
          (process_pdf_with_progress (some s) pdfSize pf contentHash sessionId
              fs eai oai logBody).events.take 2
            = [validating_event, extracting_event]) := by
  refine ⟨?_, ?_, ?_, ?_, ?_, ?_⟩
  · intro s h1 h2
    simp [pdf_filename_rejected, h1, h2]
  · intro pdfSize contentHash sessionId ai logBody
    rfl
  · intro s pdfSize contentHash sessionId ai logBody h
    have hn : pdf_filename_rejected none = true := rfl
    simp [upload_and_parse_pdf, h, hn]
  · intro s pdfSize pf contentHash sessionId fs eai oai logBody h
    have hn : pdf_filename_rejected none = true := rfl
    simp [process_pdf_with_progress, h, hn]
  · intro s pdfSize contentHash sessionId ai logBody h1 h2 h3
    have hrej : pdf_filename_rejected (some s) = false := by
      simp [pdf_filename_rejected, h1, h2]
    cases ai <;>
      simp [upload_and_parse_pdf, hrej, h3, success_log_call_raises, failure_log_call_raises]
  · intro s pdfSize pf contentHash sessionId fs eai oai logBody h1 h2 h3
    have hrej : pdf_filename_rejected (some s) = false := by
      simp [pdf_filename_rejected, h1, h2]
    cases eai <;>
      simp [process_pdf_with_progress, hrej, h3, success_log_call_raises,
        failure_log_call_raises]

/-- Witness for C10: an uppercase `.PDF` filename passes validation and
the upload handler reaches the Gemini call. -/
theorem claim_c10_witness :
    py_endswith (py_lower "REPORT.PDF") ".pdf" = true
    ∧ pdf_filename_rejected (some "REPORT.PDF") = false
    ∧ (upload_and_parse_pdf (some "REPORT.PDF") 1000 "hash" "sess"
        (.error "boom") (.ok ())).aiCalls = 1 :=
  ⟨by decide,
   claim_c10_filename_validation.1 "REPORT.PDF" (by decide) (by decide),
   claim_c10_filename_validation.2.2.2.2.1 "REPORT.PDF" 1000 "hash" "sess"
     (.error "boom") (.ok ()) (by decide) (by decide) (by decide)⟩
